import Mathlib

/-!
Verification of the trading-journal dashboard (src/app.py) against its
natural-language specification.  The app stores trade rows in a `trades`
table; the Manual Entry form derives P&L and status on submit, the
Dashboard computes net P&L / win rate / an equity curve, the Calendar
rolls up daily P&L, and Deep Statistics groups by setup / mistake /
ticker.  Numeric values are modelled as rationals and rows as a Lean
structure mirroring the `new_data` dictionary of the form handler.
-/

namespace Journal

/-- A row of the `trades` table, mirroring the `new_data` dictionary built
by the Manual Entry form (src/app.py lines 80–84) plus the `id` column the
database assigns. -/
structure Trade where
  id : Nat
  date : Nat
  ticker : String
  type : String
  entry : ℚ
  exit : ℚ
  quantity : ℚ
  setup : String
  mistake : String
  notes : String
  p_l : ℚ
  status : String
deriving Repr, DecidableEq

/-- P&L as computed on form submit:
`pl = (ex - en) * q * (1 if tp == "Long" else -1)` (src/app.py line 79). -/
def pl (tp : String) (en ex q : ℚ) : ℚ :=
  (ex - en) * q * (if tp = "Long" then 1 else -1)

/-- Status as assigned on form submit:
`"Win" if pl > 0 else "Loss"` (src/app.py line 83). -/
def statusOf (p : ℚ) : String :=
  if 0 < p then "Win" else "Loss"

/-- The record the Manual Entry submit handler inserts (src/app.py
lines 78–85): `p_l` and `status` are derived from side, entry, exit and
quantity; all other fields are stored as given. -/
def mkTrade (i d : Nat) (t tp : String) (en ex q : ℚ)
    (setup mistake notes : String) : Trade :=
  { id := i, date := d, ticker := t, type := tp, entry := en, exit := ex,
    quantity := q, setup := setup, mistake := mistake, notes := notes,
    p_l := pl tp en ex q, status := statusOf (pl tp en ex q) }

/-- Net P&L metric: `all_trades['p_l'].sum()` (src/app.py line 95). -/
def netPnl (trades : List Trade) : ℚ :=
  (trades.map Trade.p_l).sum

/-- Win rate on a non-empty ledger:
`len(all_trades[all_trades['p_l'] > 0]) / len(all_trades) * 100`
(src/app.py line 96). -/
def winRate (trades : List Trade) : ℚ :=
  ((trades.filter (fun t => decide (0 < t.p_l))).length : ℚ)
    / (trades.length : ℚ) * 100

/-- The Dashboard branch guards every metric with `all_trades.empty`
(src/app.py lines 91–98): on an empty ledger it renders an info message
and computes nothing (`none`); otherwise it computes the win rate. -/
def dashboardWinRate (trades : List Trade) : Option ℚ :=
  if trades.isEmpty then none else some (winRate trades)

/-- `all_trades.sort_values("date")` (src/app.py line 100), modelled as a
comparison sort by the `date` column.  The pandas default sort kind gives
no stability guarantee; only the permutation and date-ordering properties
of this model are relied upon. -/
def sortValuesByDate (trades : List Trade) : List Trade :=
  trades.mergeSort (fun a b => decide (a.date ≤ b.date))

/-- Running sum with accumulator, modelling `cumsum()`. -/
def cumsumFrom (a : ℚ) : List ℚ → List ℚ
  | [] => []
  | x :: xs => (a + x) :: cumsumFrom (a + x) xs

/-- The Equity column: `df_plot["p_l"].cumsum()` over the date-sorted
ledger (src/app.py lines 100–101). -/
def equityCurve (trades : List Trade) : List ℚ :=
  cumsumFrom 0 ((sortValuesByDate trades).map Trade.p_l)

/-- `supabase.table("trades").delete().eq("id", trade_id).execute()`
(src/app.py lines 37–39): removes every row whose id matches and returns
the deleted rows; it completes normally whether or not any row matched.
The result is (remaining table, deleted rows). -/
def delete_trade (trades : List Trade) (tid : Nat) :
    List Trade × List Trade :=
  (trades.filter (fun t => t.id != tid), trades.filter (fun t => t.id == tid))

/-- Distinct values of the `mistake` column, in order of first appearance. -/
def mistakeKeys (trades : List Trade) : List String :=
  (trades.map Trade.mistake).dedup

/-- Total of `all_trades['p_l'].abs()` over the rows with a given mistake
value — the slice of the pie chart for that value (src/app.py
lines 189–196). -/
def mistakeTotal (trades : List Trade) (m : String) : ℚ :=
  ((trades.filter (fun t => t.mistake == m)).map (fun t => |t.p_l|)).sum

/-- The Mistake Distribution pie: `px.pie(all_trades,
values=all_trades['p_l'].abs(), names='mistake', ...)` (src/app.py
lines 189–196) aggregates |p_l| by the `mistake` column over ALL rows —
no filter is applied before grouping. -/
def mistakeGroup (trades : List Trade) : List (String × ℚ) :=
  (mistakeKeys trades).map (fun m => (m, mistakeTotal trades m))

/-- Distinct calendar dates appearing in the ledger. -/
def dailyDates (trades : List Trade) : List Nat :=
  (trades.map Trade.date).dedup

/-- Sum of `p_l` over the rows of one calendar date. -/
def dailyTotal (trades : List Trade) (d : Nat) : ℚ :=
  ((trades.filter (fun t => t.date == d)).map Trade.p_l).sum

/-- `all_trades.groupby(all_trades['date'].dt.date)['p_l'].sum()`
(src/app.py line 146): one (date, total) pair per date that occurs in the
ledger. -/
def dailyPnl (trades : List Trade) : List (Nat × ℚ) :=
  (dailyDates trades).map (fun d => (d, dailyTotal trades d))

/-- Calendar event colour:
`"#2ecc71" if r['p_l'] >= 0 else "#e74c3c"` (src/app.py line 147). -/
def eventColor (p : ℚ) : String :=
  if 0 ≤ p then "#2ecc71" else "#e74c3c"

/-- The sidebar radio options (src/app.py line 56). -/
def menuOptions : List String :=
  ["Dashboard", "Calendar", "Trade Log", "Manual Entry", "Trade Analysis",
   "Deep Statistics"]

/-- The page a navigation branch renders. -/
inductive Page where
  | manualEntry
  | dashboard
  | tradeLog
  | tradeAnalysis
  | calendarView
  | deepStats
  | noPage
deriving Repr, DecidableEq

/-- The `if menu == ... / elif menu == ...` dispatch chain (src/app.py
lines 60–150), in source order; a string matching no guard renders no
page. -/
def navigate (menu : String) : Page :=
  if menu = "Manual Entry" then .manualEntry
  else if menu = "Dashboard" then .dashboard
  else if menu = "Trade Log" then .tradeLog
  else if menu = "Trade Analysis" then .tradeAnalysis
  else if menu = "Calendar" then .calendarView
  else if menu = "Deep Statistics" then .deepStats
  else .noPage

/-- The Risk Calculator guard:
`ent_p > 0 and sl_p > 0 and ent_p != sl_p` (src/app.py line 53). -/
def riskGuard (ent sl : ℚ) : Bool :=
  decide (0 < ent) && decide (0 < sl) && (ent != sl)

/-- The position size displayed when the guard holds:
`(acc * (risk_pct/100)) / abs(ent_p - sl_p)` (src/app.py line 54). -/
def riskSize (acc riskPct ent sl : ℚ) : ℚ :=
  acc * (riskPct / 100) / |ent - sl|

/-- The Risk Calculator expander (src/app.py lines 48–54): the size is
computed and shown only when the guard holds. -/
def riskCalc (acc riskPct ent sl : ℚ) : Option ℚ :=
  if riskGuard ent sl then some (riskSize acc riskPct ent sl) else none

/-! Concrete demonstration ledgers used by witnesses and counterexamples. -/

/-- A winning Long trade: entry 100, exit 110, quantity 10, P&L +100. -/
def demoLong : Trade :=
  mkTrade 1 0 "BTC" "Long" 100 110 10 "Breakout" "None" ""

/-- A winning Short trade: entry 50, exit 45, quantity 20, P&L +100. -/
def demoShort : Trade :=
  mkTrade 2 1 "TSLA" "Short" 50 45 20 "Fade" "FOMO" ""

/-- A losing trade on date 0 with P&L −100. -/
def demoLose : Trade :=
  mkTrade 3 0 "ETH" "Long" 200 190 10 "Dip" "Revenge" ""

/-! Helper lemmas. -/

/-- The status rule in isolation: `statusOf p = "Win"` exactly when `p`
is positive. -/
theorem statusOf_win_iff (p : ℚ) : statusOf p = "Win" ↔ 0 < p := by
  unfold statusOf
  split_ifs with h
  · simpa using h
  · simp only [h, iff_false]
    decide

/-- C1: for every trade row built by the form handler, the derived P&L is
`(exit − entry) × quantity × (+1 if side is Long, −1 if side is Short)`,
exactly; in particular the sign flips for Short trades. -/
theorem c1_pnl_sign_convention (i d : Nat) (t : String) (en ex q : ℚ)
    (s m n : String) :
    (∀ tp, (mkTrade i d t tp en ex q s m n).p_l
        = (ex - en) * q * (if tp = "Long" then 1 else -1))
    ∧ (mkTrade i d t "Long" en ex q s m n).p_l = (ex - en) * q
    ∧ (mkTrade i d t "Short" en ex q s m n).p_l = -((ex - en) * q) := by
  refine ⟨fun tp => rfl, ?_, ?_⟩
  · show pl "Long" en ex q = (ex - en) * q
    simp [pl]
  · show pl "Short" en ex q = -((ex - en) * q)
    simp [pl]

/-- C2: for every record created by the form handler, `status = "Win"`
iff `p_l > 0`; a record whose `p_l` is exactly 0 gets `status = "Loss"`. -/
theorem c2_status_boundary (i d : Nat) (t tp : String) (en ex q : ℚ)
    (s m n : String) :
    ((mkTrade i d t tp en ex q s m n).status = "Win"
        ↔ 0 < (mkTrade i d t tp en ex q s m n).p_l)
    ∧ ((mkTrade i d t tp en ex q s m n).p_l = 0
        → (mkTrade i d t tp en ex q s m n).status = "Loss") := by
  have hs : (mkTrade i d t tp en ex q s m n).status
      = statusOf (pl tp en ex q) := rfl
  have hp : (mkTrade i d t tp en ex q s m n).p_l = pl tp en ex q := rfl
  rw [hs, hp]
  constructor
  · exact statusOf_win_iff (pl tp en ex q)
  · intro h0
    rw [h0]
    decide

/-- C2 witness: a Long trade entered and exited at 100 has `p_l = 0` and
is assigned status "Loss". -/
theorem c2_status_boundary_witness :
    (mkTrade 4 0 "X" "Long" 100 100 1 "" "None" "").p_l = 0
    ∧ (mkTrade 4 0 "X" "Long" 100 100 1 "" "None" "").status = "Loss" :=
  ⟨by norm_num [mkTrade, pl],
   (c2_status_boundary 4 0 "X" "Long" 100 100 1 "" "None" "").2
     (by norm_num [mkTrade, pl])⟩

/-- C5 counterexample: deleting the absent id 99 from a one-row ledger
completes normally, deletes nothing and leaves the table unchanged — no
not-found condition is produced anywhere (the delete function has no
error outcome), refuting the claim that such a call fails with
`NotFoundError` rather than silently doing nothing. -/
theorem c5_missing_id_silent :
    delete_trade [demoLong] 99 = ([demoLong], []) := by
  rfl

/-- C5 amended: deleting an id absent from the ledger silently succeeds —
the resulting table is unchanged and the set of deleted rows is empty; no
error is reported to the caller. -/
theorem c5_amended_delete_missing (trades : List Trade) (tid : Nat)
    (h : ∀ t ∈ trades, t.id ≠ tid) :
    delete_trade trades tid = (trades, []) := by
  unfold delete_trade
  have h1 : trades.filter (fun t => t.id != tid) = trades := by
    rw [List.filter_eq_self]
    intro t ht
    simpa [bne_iff_ne] using h t ht
  have h2 : trades.filter (fun t => t.id == tid) = [] := by
    rw [List.filter_eq_nil_iff]
    intro t ht
    simpa using h t ht
  rw [h1, h2]

/-- C5 witness for the amended statement, at a concrete ledger and a
concrete missing id. -/
theorem c5_amended_delete_missing_witness :
    delete_trade [demoShort] 42 = ([demoShort], []) :=
  c5_amended_delete_missing [demoShort] 42 (by decide)

/-- The key column of the mistake grouping is exactly the list of
distinct mistake values. -/
theorem mistakeGroup_keys (trades : List Trade) :
    (mistakeGroup trades).map Prod.fst = mistakeKeys trades := by
  rw [mistakeGroup, List.map_map]
  show List.map (fun m => m) (mistakeKeys trades) = mistakeKeys trades
  simp

/-- C6 counterexample: on a ledger with one `mistake = "None"` record and
one `mistake = "FOMO"` record, the mistake grouping contains the "None"
key with the full |p_l| contribution of the disciplined trade — refuting
the claim that "None" records are excluded. -/
theorem c6_none_included :
    "None" ∈ (mistakeGroup [demoLong, demoShort]).map Prod.fst
    ∧ mistakeTotal [demoLong, demoShort] "None" = 100 := by
  constructor
  · rw [mistakeGroup_keys]
    decide
  · simp [mistakeTotal, demoLong, demoShort, mkTrade, pl, statusOf,
      List.filter_cons, beq_iff_eq]
    norm_num

/-- C6 amended: the mistake grouping excludes nothing — whenever some
record has `mistake = "None"`, the grouping contains the "None" key. -/
theorem c6_amended_none_key (trades : List Trade) (t : Trade)
    (ht : t ∈ trades) (hm : t.mistake = "None") :
    "None" ∈ (mistakeGroup trades).map Prod.fst := by
  rw [mistakeGroup_keys, mistakeKeys, List.mem_dedup]
  exact List.mem_map.mpr ⟨t, ht, hm⟩

/-- C6 witness for the amended statement, at a concrete ledger holding a
"None" record. -/
theorem c6_amended_none_key_witness :
    "None" ∈ (mistakeGroup [demoLose, demoLong]).map Prod.fst :=
  c6_amended_none_key [demoLose, demoLong] demoLong
    (List.mem_cons_of_mem demoLose (List.mem_cons_self demoLong [])) rfl

/-- C8 counterexample: on an empty ledger the Dashboard takes the
`all_trades.empty` branch and computes no win rate at all — the result is
`none`, not the value 0 the claim requires. -/
theorem c8_empty_win_rate_none :
    dashboardWinRate ([] : List Trade) = none
    ∧ dashboardWinRate ([] : List Trade) ≠ some 0 := by
  constructor
  · rfl
  · decide

/-- C8 amended: the win rate equals `count(p_l > 0) / count(total) × 100`
and is computed only on a non-empty ledger (the empty ledger renders an
info message and computes no aggregates), so the division is never by
zero. -/
theorem c8_amended_win_rate (trades : List Trade) :
    (dashboardWinRate trades = none ↔ trades = [])
    ∧ (∀ q, dashboardWinRate trades = some q
        → 0 < trades.length
          ∧ q = ((trades.filter (fun t => decide (0 < t.p_l))).length : ℚ)
              / (trades.length : ℚ) * 100) := by
  unfold dashboardWinRate
  constructor
  · split_ifs with h
    · simp only [List.isEmpty_iff] at h
      simp [h]
    · simp only [List.isEmpty_iff] at h
      simp [h]
  · intro q hq
    split_ifs at hq with h
    simp only [List.isEmpty_iff] at h
    refine ⟨List.length_pos.mpr h, ?_⟩
    injection hq with hq'
    rw [← hq']
    rfl

/-- C8 witness for the amended statement, at a concrete one-row ledger. -/
theorem c8_amended_win_rate_witness :
    0 < ([demoLong] : List Trade).length
    ∧ winRate [demoLong]
        = ((([demoLong] : List Trade).filter (fun t => decide (0 < t.p_l))).length : ℚ)
            / (([demoLong] : List Trade).length : ℚ) * 100 :=
  (c8_amended_win_rate [demoLong]).2 (winRate [demoLong]) rfl

/-- The running sum of a non-empty list ends at the full sum. -/
theorem cumsumFrom_getLast (a x : ℚ) (l : List ℚ) :
    (cumsumFrom a (x :: l)).getLast? = some (a + (x :: l).sum) := by
  induction l generalizing a x with
  | nil => simp [cumsumFrom]
  | cons y ys ih =>
    rw [show cumsumFrom a (x :: y :: ys)
          = (a + x) :: cumsumFrom (a + x) (y :: ys) from rfl]
    rw [show cumsumFrom (a + x) (y :: ys)
          = (a + x + y) :: cumsumFrom (a + x + y) ys from rfl]
    rw [List.getLast?_cons_cons]
    rw [← show cumsumFrom (a + x) (y :: ys)
          = (a + x + y) :: cumsumFrom (a + x + y) ys from rfl]
    rw [ih]
    congr 1
    simp [List.sum_cons]
    ring

/-- C3: for a non-empty ledger, the final cumulative value of the equity
curve equals the Dashboard's Net P&L (the sum of all `p_l` values) over
the same records: sorting permutes the rows without changing their sum. -/
theorem c3_equity_final_eq_net (trades : List Trade) (h : trades ≠ []) :
    (equityCurve trades).getLast? = some (netPnl trades) := by
  have hperm : List.Perm (sortValuesByDate trades) trades :=
    List.mergeSort_perm trades _
  have hne : sortValuesByDate trades ≠ [] := by
    intro e
    apply h
    have h2 : List.Perm trades ([] : List Trade) := e ▸ hperm.symm
    exact h2.eq_nil
  obtain ⟨t, ts, hts⟩ := List.exists_cons_of_ne_nil hne
  have hsum : ((sortValuesByDate trades).map Trade.p_l).sum
      = (trades.map Trade.p_l).sum := (hperm.map Trade.p_l).sum_eq
  rw [equityCurve, hts, List.map_cons, cumsumFrom_getLast]
  rw [← List.map_cons, ← hts, hsum, netPnl, zero_add]

/-- C3 witness: at a concrete two-trade ledger. -/
theorem c3_equity_final_eq_net_witness :
    ([demoLong, demoShort] : List Trade) ≠ []
    ∧ (equityCurve [demoLong, demoShort]).getLast?
        = some (netPnl [demoLong, demoShort]) :=
  ⟨by simp, c3_equity_final_eq_net [demoLong, demoShort] (by simp)⟩

/-- C7 counterexample: on a ledger whose two same-day trades cancel, the
daily rollup contains that date with total 0, and the calendar colours it
with the win colour `#2ecc71` — identically to a profitable day — so there
is no distinct break-even rendering, refuting the claim that a net-zero
date is rendered as break-even. -/
theorem c7_zero_day_win_colored :
    dailyPnl [demoLong, demoLose] = [(0, 0)]
    ∧ eventColor 0 = "#2ecc71"
    ∧ eventColor 0 = eventColor 100
    ∧ ¬ (eventColor 0 ≠ "#2ecc71" ∧ eventColor 0 ≠ "#e74c3c") := by
  have h1 : dailyDates [demoLong, demoLose] = [0] := by decide
  have h2 : dailyTotal [demoLong, demoLose] 0 = 0 := by
    simp [dailyTotal, demoLong, demoLose, mkTrade, pl, statusOf,
      List.filter_cons]
    norm_num
  refine ⟨?_, by decide, by decide, by decide⟩
  rw [dailyPnl, h1]
  show [(0, dailyTotal [demoLong, demoLose] 0)] = [(0, 0)]
  rw [h2]

/-- C7 amended: the daily rollup groups records by calendar date and sums
`p_l` per date; a date with no trades is absent from the output; a date
whose net P&L is exactly 0 is present with value 0 and is coloured with
the same green `#2ecc71` as profitable days (the guard is `p_l >= 0`) —
not the loss colour, but also not a distinct break-even rendering. -/
theorem c7_amended_daily (trades : List Trade) (d : Nat) :
    ((∃ t, t ∈ trades ∧ t.date = d)
        → (d, dailyTotal trades d) ∈ dailyPnl trades)
    ∧ ((¬ ∃ t, t ∈ trades ∧ t.date = d)
        → ∀ p, (d, p) ∉ dailyPnl trades)
    ∧ eventColor 0 = "#2ecc71"
    ∧ eventColor 0 ≠ "#e74c3c" := by
  refine ⟨?_, ?_, by decide, by decide⟩
  · rintro ⟨t, ht, hd⟩
    rw [dailyPnl]
    refine List.mem_map.mpr ⟨d, ?_, rfl⟩
    rw [dailyDates, List.mem_dedup]
    exact List.mem_map.mpr ⟨t, ht, hd⟩
  · intro hno p hp
    rw [dailyPnl] at hp
    obtain ⟨d', hd', heq⟩ := List.mem_map.mp hp
    injection heq with he1 he2
    subst he1
    rw [dailyDates, List.mem_dedup] at hd'
    obtain ⟨t, ht, hdt⟩ := List.mem_map.mp hd'
    exact hno ⟨t, ht, hdt⟩

/-- C7 witness for the amended statement: the cancelling same-day ledger
does contain its date, paired with its (zero) daily total. -/
theorem c7_amended_daily_witness :
    ((0 : Nat), dailyTotal [demoLong, demoLose] 0)
      ∈ dailyPnl [demoLong, demoLose] :=
  (c7_amended_daily [demoLong, demoLose] 0).1
    ⟨demoLong, List.mem_cons_self demoLong [demoLose], rfl⟩

/-- C9 counterexample: "Deep Statistics" is one of the radio options and
selecting it takes the statistics branch — the branch IS reachable,
refuting the claim that no radio value reaches it. -/
theorem c9_deep_stats_reached :
    "Deep Statistics" ∈ menuOptions
    ∧ navigate "Deep Statistics" = Page.deepStats := by
  constructor
  · decide
  · decide

/-- C9 amended: the statistics branch is guarded by the string
"Deep Statistics", which is exactly the name of the sixth radio option,
so the branch is reachable, and it is taken precisely for that option. -/
theorem c9_amended_reachable :
    "Deep Statistics" ∈ menuOptions
    ∧ navigate "Deep Statistics" = Page.deepStats
    ∧ (∀ s, navigate s = Page.deepStats → s = "Deep Statistics") := by
  refine ⟨by decide, by decide, ?_⟩
  intro s h
  unfold navigate at h
  split_ifs at h with h1 h2 h3 h4 h5 h6
  exact h6

/-- C9 witness for the amended statement, applying the uniqueness part at
the concrete input "Deep Statistics". -/
theorem c9_amended_reachable_witness :
    "Deep Statistics" = "Deep Statistics" :=
  c9_amended_reachable.2.2 "Deep Statistics" (by decide)

/-- C10: whenever the Risk Calculator displays a size, the guard held, so
entry and stop are positive and distinct and the divisor |entry − stop| is
strictly positive; the division-by-zero branch is unreachable. -/
theorem c10_risk_divisor_positive (acc riskPct ent sl s : ℚ)
    (h : riskCalc acc riskPct ent sl = some s) :
    0 < ent ∧ 0 < sl ∧ ent ≠ sl ∧ 0 < |ent - sl|
    ∧ s = acc * (riskPct / 100) / |ent - sl| := by
  unfold riskCalc at h
  split_ifs at h with hg
  unfold riskGuard at hg
  simp only [Bool.and_eq_true, decide_eq_true_eq, bne_iff_ne] at hg
  obtain ⟨⟨h1, h2⟩, h3⟩ := hg
  refine ⟨h1, h2, h3, abs_pos.mpr (sub_ne_zero.mpr h3), ?_⟩
  injection h with h'
  rw [← h']
  rfl

/-- C10 witness: with balance 10000, risk 1%, entry 100 and stop 95 the
calculator shows size 20 and the guard facts hold. -/
theorem c10_risk_divisor_positive_witness :
    0 < (100 : ℚ) ∧ 0 < (95 : ℚ) ∧ (100 : ℚ) ≠ 95 ∧ 0 < |(100 : ℚ) - 95|
    ∧ (20 : ℚ) = 10000 * ((1 : ℚ) / 100) / |(100 : ℚ) - 95| :=
  c10_risk_divisor_positive 10000 1 100 95 20
    (by rw [riskCalc, if_pos (by decide : riskGuard 100 95 = true)]
        norm_num [riskSize])

end Journal
